import Mathlib

/-!
Shallow embedding of the Futu-backed data-access facade of this repository:
`src/tools/api.py` (the facade: `get_prices`, `get_financial_metrics`,
`search_line_items`, `get_market_cap`) and `src/tools/futu_api.py` (the
`FutuAPI` provider adapter).

Modelling conventions:
* ISO-8601 `YYYY-MM-DD` date strings compare lexicographically, which on
  equal-length dates coincides with chronological order; dates are modelled
  as naturals with the usual order.  `time_key[:10]` in `get_prices` slices
  the date part out of a datetime string; a `KlineRow.time_key` is modelled
  as that sliced date directly.
* Python floats/decimals are modelled as rationals, Python `None` as
  `Option.none`.  Raw provider rows are dicts; `row.get(k)` on a known key
  is a named `Option` field, and the `{}` default row is `emptyRow` (all
  fields `none`).
* A raised exception is `Except.error` with the message the code formats.
* The per-ticker cache entry for each entity kind is passed in explicitly
  (`List _`, where `[]` is a miss: Python treats both an absent entry and an
  empty list as falsy in `if cached_data := ...`).  Each facade call returns
  an outcome record carrying its result, whether the provider adapter was
  consulted (`FutuAPI()` constructed / `connect()` attempted), and the cache
  entry after the call.
* The provider adapter is modelled by `FutuEnv`: the data the running Futu
  endpoint would return for this call, with `none` standing for a failed
  provider call (`ret != RET_OK`, which makes the adapter return `None`).
-/

namespace HedgeFund

/-- Dates (`YYYY-MM-DD` strings in the source) modelled as naturals;
lexicographic comparison of equal-length ISO dates is the natural order. -/
abbrev Date := Nat

/-- Canonical `Price` record as constructed by `get_prices`
(`data.models.Price`; the field `open` is renamed `open_` because `open` is a
Lean keyword). -/
structure Price where
  open_ : ℚ
  close : ℚ
  high : ℚ
  low : ℚ
  volume : ℤ
  time : Date
deriving DecidableEq, Repr

/-- One record of `data.to_dict("records")` from
`FutuAPI.get_history_kline`: the raw kline row fields read by `get_prices`. -/
structure KlineRow where
  open_ : ℚ
  close : ℚ
  high : ℚ
  low : ℚ
  volume : ℤ
  /-- `item["time_key"][:10]`: the date part of the row's datetime string. -/
  time_key : Date
deriving DecidableEq, Repr

/-- The single market-snapshot row used by `get_financial_metrics` and
`search_line_items`; every field is read through `.get`, hence optional. -/
structure SnapRow where
  currency : Option String
  market_val : Option ℚ
  total_enterprise_value : Option ℚ
  pe_ratio : Option ℚ
  pb_ratio : Option ℚ
  ps_ratio : Option ℚ
  ev_ebitda : Option ℚ
  ev_revenue : Option ℚ
  dividend_payout_ratio : Option ℚ
  eps : Option ℚ
  book_value_per_share : Option ℚ
  total_shares : Option ℚ
deriving DecidableEq, Repr

/-- A raw financial-statement row (income, balance or cashflow).  The source
reads `item["report_date"]` as a required key and every other field through
`.get`, hence optional. -/
structure StmtRow where
  report_date : Date
  revenue : Option ℚ
  gross_profit : Option ℚ
  operating_income : Option ℚ
  net_income : Option ℚ
  ebitda : Option ℚ
  interest_expense : Option ℚ
  total_assets : Option ℚ
  total_liabilities : Option ℚ
  total_equity : Option ℚ
  current_assets : Option ℚ
  current_liabilities : Option ℚ
  inventory : Option ℚ
  cash : Option ℚ
  operating_cash_flow : Option ℚ
  free_cash_flow : Option ℚ
deriving DecidableEq, Repr

/-- The `{}` default row: `next((b for b in ... ), {})` falls back to an
empty dict, on which every `.get` returns `None`.  Its `report_date` is never
read by the source; `0` is a placeholder. -/
def emptyRow : StmtRow :=
  { report_date := 0, revenue := none, gross_profit := none,
    operating_income := none, net_income := none, ebitda := none,
    interest_expense := none, total_assets := none, total_liabilities := none,
    total_equity := none, current_assets := none, current_liabilities := none,
    inventory := none, cash := none, operating_cash_flow := none,
    free_cash_flow := none }

/-- Dict-style string access `item.get(name)` on a statement row, for the
closed set of field names the facade ever requests. -/
def StmtRow.get (r : StmtRow) : String → Option ℚ
  | "revenue" => r.revenue
  | "gross_profit" => r.gross_profit
  | "operating_income" => r.operating_income
  | "net_income" => r.net_income
  | "ebitda" => r.ebitda
  | "interest_expense" => r.interest_expense
  | "total_assets" => r.total_assets
  | "total_liabilities" => r.total_liabilities
  | "total_equity" => r.total_equity
  | "current_assets" => r.current_assets
  | "current_liabilities" => r.current_liabilities
  | "inventory" => r.inventory
  | "cash" => r.cash
  | "operating_cash_flow" => r.operating_cash_flow
  | "free_cash_flow" => r.free_cash_flow
  | _ => none

/-- The three raw statement kinds (`"income"`, `"balance"`, `"cashflow"`). -/
inductive StmtKind where
  | income
  | balance
  | cashflow
deriving DecidableEq, Repr

/-- The data the Futu endpoint would serve to this one facade call.
`connectOk` is the success flag of `FutuAPI.connect`; each fetch returns
`none` when the underlying provider call fails (`ret != RET_OK`), making the
adapter method return `None`. -/
structure FutuEnv where
  connectOk : Bool
  kline : String → Date → Date → Option (List KlineRow)
  snapshot : String → Option (List SnapRow)
  finData : String → StmtKind → Option (List StmtRow)

/-- Python `s.startswith(p)`, spelled out on the underlying character
lists. -/
def strStartsWith (s p : String) : Bool :=
  p.data.isPrefixOf s.data

/-- The facade's ticker-to-Futu-code translation, written identically at
`get_prices`, `get_financial_metrics` and `search_line_items`:
`f"US.{ticker}" if not ticker.startswith(("US.", "HK.", "SH.", "SZ.")) else ticker`. -/
def translate (ticker : String) : String :=
  if strStartsWith ticker "US." || strStartsWith ticker "HK." ||
      strStartsWith ticker "SH." || strStartsWith ticker "SZ." then
    ticker
  else
    "US." ++ ticker

/-- Outcome of one `get_prices` call: its return value or raised error, a
flag recording whether the provider adapter was consulted at all, and the
ticker's price-cache entry after the call. -/
structure PricesOutcome where
  result : Except String (List Price)
  providerCalled : Bool
  cacheAfter : List Price
deriving Repr

/-- `get_prices(ticker, start_date, end_date)` from `src/tools/api.py`,
with the ticker's cached price records and the provider environment passed
explicitly. -/
def get_prices (cache : List Price) (env : FutuEnv) (ticker : String)
    (start_date end_date : Date) : PricesOutcome :=
  -- `if cached_data := _cache.get_prices(ticker): ...` — hit when the stored
  -- entry is truthy and the date-range filter keeps something.
  let filtered_data :=
    cache.filter (fun p => decide (start_date ≤ p.time ∧ p.time ≤ end_date))
  if cache ≠ [] ∧ filtered_data ≠ [] then
    { result := Except.ok filtered_data, providerCalled := false,
      cacheAfter := cache }
  else if ¬ env.connectOk then
    -- `raise Exception("Failed to connect to Futu API")`, re-wrapped by the
    -- surrounding `except` clause.
    { result := Except.error ("Error fetching price data for " ++ ticker ++
        ": Failed to connect to Futu API"),
      providerCalled := true, cacheAfter := cache }
  else
    let futu_code := translate ticker
    match env.kline futu_code start_date end_date with
    | none =>
      -- adapter returned `None`; `if not kline_data: return []`
      { result := Except.ok [], providerCalled := true, cacheAfter := cache }
    | some kline_data =>
      if kline_data = [] then
        { result := Except.ok [], providerCalled := true, cacheAfter := cache }
      else
        let prices := kline_data.map (fun item =>
          { open_ := item.open_, close := item.close, high := item.high,
            low := item.low, volume := item.volume, time := item.time_key
            : Price })
        { result := Except.ok prices, providerCalled := true,
          cacheAfter := prices }

/-- Canonical `FinancialMetrics` record, with exactly the fields the
constructor call in `get_financial_metrics` assigns. -/
structure FinancialMetrics where
  ticker : String
  report_period : Date
  period : String
  currency : String
  market_cap : Option ℚ
  enterprise_value : Option ℚ
  price_to_earnings_ratio : Option ℚ
  price_to_book_ratio : Option ℚ
  price_to_sales_ratio : Option ℚ
  enterprise_value_to_ebitda_ratio : Option ℚ
  enterprise_value_to_revenue_ratio : Option ℚ
  free_cash_flow_yield : Option ℚ
  peg_ratio : Option ℚ
  gross_margin : Option ℚ
  operating_margin : Option ℚ
  net_margin : Option ℚ
  return_on_equity : Option ℚ
  return_on_assets : Option ℚ
  return_on_invested_capital : Option ℚ
  asset_turnover : Option ℚ
  inventory_turnover : Option ℚ
  receivables_turnover : Option ℚ
  days_sales_outstanding : Option ℚ
  operating_cycle : Option ℚ
  working_capital_turnover : Option ℚ
  current_ratio : Option ℚ
  quick_ratio : Option ℚ
  cash_ratio : Option ℚ
  operating_cash_flow_ratio : Option ℚ
  debt_to_equity : Option ℚ
  debt_to_assets : Option ℚ
  interest_coverage : Option ℚ
  revenue_growth : Option ℚ
  earnings_growth : Option ℚ
  book_value_growth : Option ℚ
  earnings_per_share_growth : Option ℚ
  free_cash_flow_growth : Option ℚ
  operating_income_growth : Option ℚ
  ebitda_growth : Option ℚ
  payout_ratio : Option ℚ
  earnings_per_share : Option ℚ
  book_value_per_share : Option ℚ
  free_cash_flow_per_share : Option ℚ
deriving DecidableEq, Repr

/-- `safe_divide(a, b)` from `get_financial_metrics`:
`a / b if a is not None and b is not None and b != 0 else None`. -/
def safe_divide (a b : Option ℚ) : Option ℚ :=
  match a, b with
  | some x, some y => if y ≠ 0 then some (x / y) else none
  | _, _ => none

/-- The body of the conversion loop of `get_financial_metrics`: the balance
and cashflow lookups by report date (defaulting to the empty row) and the
`FinancialMetrics(...)` construction for one raw income row. -/
def mkMetrics (ticker period : String) (snap : SnapRow)
    (balance_data cashflow_data : List StmtRow) (item : StmtRow) :
    FinancialMetrics :=
  let balance_item :=
    (balance_data.find? (fun b => b.report_date == item.report_date)).getD
      emptyRow
  let cashflow_item :=
    (cashflow_data.find? (fun c => c.report_date == item.report_date)).getD
      emptyRow
  { ticker := ticker,
    report_period := item.report_date,
    period := period,
    currency := snap.currency.getD "USD",
    market_cap := snap.market_val,
    enterprise_value := snap.total_enterprise_value,
    price_to_earnings_ratio := snap.pe_ratio,
    price_to_book_ratio := snap.pb_ratio,
    price_to_sales_ratio := snap.ps_ratio,
    enterprise_value_to_ebitda_ratio := snap.ev_ebitda,
    enterprise_value_to_revenue_ratio := snap.ev_revenue,
    free_cash_flow_yield :=
      safe_divide cashflow_item.free_cash_flow snap.market_val,
    peg_ratio := none,
    gross_margin := safe_divide item.gross_profit item.revenue,
    operating_margin := safe_divide item.operating_income item.revenue,
    net_margin := safe_divide item.net_income item.revenue,
    return_on_equity :=
      safe_divide item.net_income balance_item.total_equity,
    return_on_assets :=
      safe_divide item.net_income balance_item.total_assets,
    return_on_invested_capital := none,
    asset_turnover := safe_divide item.revenue balance_item.total_assets,
    inventory_turnover := none,
    receivables_turnover := none,
    days_sales_outstanding := none,
    operating_cycle := none,
    working_capital_turnover := none,
    current_ratio :=
      safe_divide balance_item.current_assets
        balance_item.current_liabilities,
    quick_ratio :=
      safe_divide
        (match balance_item.current_assets, balance_item.inventory with
         | some ca, some inv => some (ca - inv)
         | _, _ => none)
        balance_item.current_liabilities,
    cash_ratio :=
      safe_divide balance_item.cash balance_item.current_liabilities,
    operating_cash_flow_ratio :=
      safe_divide cashflow_item.operating_cash_flow
        balance_item.current_liabilities,
    debt_to_equity :=
      safe_divide balance_item.total_liabilities balance_item.total_equity,
    debt_to_assets :=
      safe_divide balance_item.total_liabilities balance_item.total_assets,
    interest_coverage := safe_divide item.ebitda item.interest_expense,
    revenue_growth := none,
    earnings_growth := none,
    book_value_growth := none,
    earnings_per_share_growth := none,
    free_cash_flow_growth := none,
    operating_income_growth := none,
    ebitda_growth := none,
    payout_ratio := snap.dividend_payout_ratio,
    earnings_per_share := snap.eps,
    book_value_per_share := snap.book_value_per_share,
    free_cash_flow_per_share :=
      safe_divide cashflow_item.free_cash_flow snap.total_shares }

/-- The conversion loop of `get_financial_metrics` over the raw income rows:
skip rows with `report_date > end_date` (`continue`), append a record for
every other row, and `break` as soon as `len(financial_metrics) >= limit`. -/
def buildMetrics (ticker period : String) (snap : SnapRow)
    (balance_data cashflow_data : List StmtRow) (end_date : Date)
    (limit : Nat) : List StmtRow → List FinancialMetrics →
    List FinancialMetrics
  | [], acc => acc
  | item :: rest, acc =>
    if end_date < item.report_date then
      buildMetrics ticker period snap balance_data cashflow_data end_date
        limit rest acc
    else
      let acc2 :=
        acc ++ [mkMetrics ticker period snap balance_data cashflow_data item]
      if limit ≤ acc2.length then acc2
      else
        buildMetrics ticker period snap balance_data cashflow_data end_date
          limit rest acc2

/-- One step of the stable descending sort used on the cache-hit path of
`get_financial_metrics` (`filtered_data.sort(key=..., reverse=True)` is a
stable sort): insert `x` after every element whose `report_period` is at
least as large. -/
def insertDesc (x : FinancialMetrics) : List FinancialMetrics →
    List FinancialMetrics
  | [] => [x]
  | y :: ys =>
    if x.report_period < y.report_period then y :: insertDesc x ys
    else x :: y :: ys

/-- Stable insertion sort, descending by `report_period`, modelling Python's
`list.sort(key=lambda x: x.report_period, reverse=True)`. -/
def sortDesc : List FinancialMetrics → List FinancialMetrics
  | [] => []
  | x :: xs => insertDesc x (sortDesc xs)

/-- Outcome of one `get_financial_metrics` call: its return value or raised
error, whether the provider adapter was consulted, and the ticker's
financial-metrics cache entry after the call. -/
structure MetricsOutcome where
  result : Except String (List FinancialMetrics)
  providerCalled : Bool
  cacheAfter : List FinancialMetrics
deriving Repr

/-- `get_financial_metrics(ticker, end_date, period, limit)` from
`src/tools/api.py`, with the ticker's cached metric records and the provider
environment passed explicitly. -/
def get_financial_metrics (cache : List FinancialMetrics) (env : FutuEnv)
    (ticker : String) (end_date : Date) (period : String) (limit : Nat) :
    MetricsOutcome :=
  -- `if cached_data := _cache.get_financial_metrics(ticker): ...`
  let filtered_data :=
    cache.filter (fun m => decide (m.report_period ≤ end_date))
  if cache ≠ [] ∧ filtered_data ≠ [] then
    { result := Except.ok ((sortDesc filtered_data).take limit),
      providerCalled := false, cacheAfter := cache }
  else if ¬ env.connectOk then
    { result := Except.error ("Error fetching data from Futu API: " ++
        ticker ++ " - Failed to connect to Futu API"),
      providerCalled := true, cacheAfter := cache }
  else
    let futu_code := translate ticker
    match env.snapshot futu_code with
    | none =>
      -- `if not snapshot: return []` (adapter returned `None`)
      { result := Except.ok [], providerCalled := true, cacheAfter := cache }
    | some [] =>
      -- `if not snapshot: return []` (empty record list is falsy too)
      { result := Except.ok [], providerCalled := true, cacheAfter := cache }
    | some (snap :: _) =>
      -- `snapshot = snapshot[0]`, then the three
      -- `futu.get_financial_data(futu_code, kind) or []` fetches
      let financial_data := (env.finData futu_code StmtKind.income).getD []
      let balance_data := (env.finData futu_code StmtKind.balance).getD []
      let cashflow_data := (env.finData futu_code StmtKind.cashflow).getD []
      let financial_metrics :=
        buildMetrics ticker period snap balance_data cashflow_data end_date
          limit financial_data []
      if financial_metrics = [] then
        { result := Except.ok [], providerCalled := true, cacheAfter := cache }
      else
        { result := Except.ok financial_metrics, providerCalled := true,
          cacheAfter := financial_metrics }

/-- `get_market_cap(ticker, end_date)` from `src/tools/api.py`: indexes
`financial_metrics[0]` (an `IndexError` escapes when the list is empty,
modelled as `Except.error`), then `if not market_cap: return None` treats
both `None` and `0` as falsy. -/
def get_market_cap (cache : List FinancialMetrics) (env : FutuEnv)
    (ticker : String) (end_date : Date) : Except String (Option ℚ) :=
  match (get_financial_metrics cache env ticker end_date "ttm" 10).result with
  | Except.error e => Except.error e
  | Except.ok [] => Except.error "IndexError: list index out of range"
  | Except.ok (m :: _) =>
    match m.market_cap with
    | none => Except.ok none
    | some v => if v = 0 then Except.ok none else Except.ok (some v)

/-- Canonical `LineItem` record: the fixed fields plus the dynamic
`item_data[line_item] = item.get(line_item)` assignments, modelled as an
association list from the requested field names to their (possibly absent)
values. -/
structure LineItem where
  ticker : String
  report_period : Date
  period : String
  currency : String
  fields : List (String × Option ℚ)
deriving DecidableEq, Repr

/-- The `if/elif` chain of `search_line_items` classifying one requested
field name into the statement kind that carries it (`None` for a name
outside the fixed mapping). -/
def stmtKindFor (item : String) : Option StmtKind :=
  if item = "revenue" ∨ item = "gross_profit" ∨ item = "operating_income" ∨
      item = "net_income" then
    some StmtKind.income
  else if item = "total_assets" ∨ item = "total_liabilities" ∨
      item = "total_equity" ∨ item = "current_assets" then
    some StmtKind.balance
  else if item = "operating_cash_flow" ∨ item = "free_cash_flow" then
    some StmtKind.cashflow
  else
    none

/-- `financial_types`: the set of statement kinds the requested field names
map to.  Python builds a `set` (whose iteration order is unspecified); it is
modelled as a duplicate-free list in first-insertion order. -/
def financialTypes (line_items : List String) : List StmtKind :=
  line_items.foldl
    (fun acc it =>
      match stmtKindFor it with
      | some k => if k ∈ acc then acc else acc ++ [k]
      | none => acc)
    []

/-- The inner row loop of `search_line_items` over one statement kind's
rows: skip rows newer than `end_date`, emit a `LineItem` populated with
every requested field via `item.get`, `break` at `limit`. -/
def buildLineItemRows (ticker period currency : String)
    (line_items : List String) (end_date : Date) (limit : Nat) :
    List StmtRow → List LineItem → List LineItem
  | [], acc => acc
  | item :: rest, acc =>
    if end_date < item.report_date then
      buildLineItemRows ticker period currency line_items end_date limit
        rest acc
    else
      let li : LineItem :=
        { ticker := ticker, report_period := item.report_date,
          period := period, currency := currency,
          fields := line_items.map (fun n => (n, item.get n)) }
      let acc2 := acc ++ [li]
      if limit ≤ acc2.length then acc2
      else
        buildLineItemRows ticker period currency line_items end_date limit
          rest acc2

/-- The outer loop of `search_line_items` over the fetched statement kinds,
with the second `break` once `limit` is reached across kinds. -/
def buildLineItems (ticker period currency : String)
    (line_items : List String) (end_date : Date) (limit : Nat) :
    List (StmtKind × List StmtRow) → List LineItem → List LineItem
  | [], acc => acc
  | (_, data) :: restKinds, acc =>
    let acc2 :=
      buildLineItemRows ticker period currency line_items end_date limit
        data acc
    if limit ≤ acc2.length then acc2
    else
      buildLineItems ticker period currency line_items end_date limit
        restKinds acc2

/-- Outcome of one `search_line_items` call.  The source function performs
no cache interaction whatsoever — the cache entry is threaded through this
outcome unchanged only so that claims about cache behaviour can be stated.
`fetchedKinds` records which statement kinds were fetched from the
provider. -/
structure LineItemsOutcome where
  result : Except String (List LineItem)
  providerCalled : Bool
  fetchedKinds : List StmtKind
  cacheAfter : List LineItem
deriving Repr

/-- `search_line_items(ticker, line_items, end_date, period, limit)` from
`src/tools/api.py`.  Unlike `get_prices` and `get_financial_metrics`, the
source body has no `_cache.get_*` lookup and no `_cache.set_*` write: it
always constructs `FutuAPI` and fetches. -/
def search_line_items (cache : List LineItem) (env : FutuEnv)
    (ticker : String) (line_items : List String) (end_date : Date)
    (period : String) (limit : Nat) : LineItemsOutcome :=
  if ¬ env.connectOk then
    { result := Except.error ("Error fetching line items from Futu API: " ++
        ticker ++ " - Failed to connect to Futu API"),
      providerCalled := true, fetchedKinds := [], cacheAfter := cache }
  else
    let futu_code := translate ticker
    let kinds := financialTypes line_items
    -- `all_data[ftype] = futu.get_financial_data(futu_code, ftype) or []`
    let all_data := kinds.map (fun k => (k, (env.finData futu_code k).getD []))
    -- `currency = snapshot[0].get("currency", "USD") if snapshot else "USD"`
    let currency :=
      match env.snapshot futu_code with
      | some (s :: _) => s.currency.getD "USD"
      | _ => "USD"
    let line_items_result :=
      buildLineItems ticker period currency line_items end_date limit
        all_data []
    { result := Except.ok line_items_result, providerCalled := true,
      fetchedKinds := kinds, cacheAfter := cache }

/-! ### Derived notions and concrete sample inputs -/

/-- Descending order by `report_period`: how the cache-hit path of
`get_financial_metrics` orders its output. -/
def DescRel (a b : FinancialMetrics) : Prop :=
  b.report_period ≤ a.report_period

instance : IsTrans FinancialMetrics DescRel :=
  ⟨fun _ _ _ hab hbc => le_trans hbc hab⟩

instance : DecidableRel DescRel := fun a b =>
  inferInstanceAs (Decidable (b.report_period ≤ a.report_period))

/-- The list carried by an `Except.ok` result, `[]` on an error. -/
def okList {α : Type} : Except String (List α) → List α
  | Except.ok l => l
  | Except.error _ => []

/-- An all-absent market snapshot row, used as a concrete sample input. -/
def snapNone : SnapRow :=
  { currency := none, market_val := none, total_enterprise_value := none,
    pe_ratio := none, pb_ratio := none, ps_ratio := none, ev_ebitda := none,
    ev_revenue := none, dividend_payout_ratio := none, eps := none,
    book_value_per_share := none, total_shares := none }

/-- A concrete balance row for report date 3 with current assets and
current liabilities but no inventory. -/
def balRow3 : StmtRow :=
  { emptyRow with report_date := 3, current_assets := some 5,
                  current_liabilities := some 2 }

/-- A concrete income row for report date 3. -/
def incRow3 : StmtRow :=
  { emptyRow with report_date := 3, revenue := some 10,
                  gross_profit := some 4, operating_income := some 3,
                  net_income := some 2 }

/-- A concrete income row for report date 4 (a date with no balance row
among the samples). -/
def incRow4 : StmtRow :=
  { emptyRow with report_date := 4, revenue := some 10,
                  gross_profit := some 4, operating_income := some 3,
                  net_income := some 2 }

/-- A concrete cached price record with date 5. -/
def priceW : Price :=
  { open_ := 1, close := 2, high := 3, low := 1, volume := 5, time := 5 }

/-- A concrete cached financial-metrics record (report period 3). -/
def fmW : FinancialMetrics := mkMetrics "X" "ttm" snapNone [balRow3] [] incRow3

/-- A concrete cached line-item record (report period 3). -/
def liW : LineItem :=
  { ticker := "X", report_period := 3, period := "ttm", currency := "USD",
    fields := [("revenue", some 10)] }

/-- A provider environment whose `connect()` fails. -/
def envBad : FutuEnv :=
  { connectOk := false, kline := fun _ _ _ => none,
    snapshot := fun _ => none, finData := fun _ _ => none }

/-- A provider environment that connects but whose every provider call
fails (`ret != RET_OK`), making each adapter fetch return `None`. -/
def envKlineFail : FutuEnv :=
  { connectOk := true, kline := fun _ _ _ => none,
    snapshot := fun _ => none, finData := fun _ _ => none }

/-- A provider environment that connects and serves an empty snapshot
record list. -/
def envSnapEmpty : FutuEnv :=
  { connectOk := true, kline := fun _ _ _ => none,
    snapshot := fun _ => some [], finData := fun _ _ => none }

/-- A provider environment that connects and serves two income rows in
ascending report-date order (dates 3 and 4), a snapshot, and empty balance
and cashflow statements. -/
def envAsc : FutuEnv :=
  { connectOk := true, kline := fun _ _ _ => none,
    snapshot := fun _ => some [snapNone],
    finData := fun _ k =>
      if k = StmtKind.income then some [incRow3, incRow4] else some [] }

/-! ### Helper lemmas -/

theorem isPrefixOf_append (p l : List Char) : p.isPrefixOf (p ++ l) = true := by
  induction p with
  | nil => simp [List.isPrefixOf]
  | cons a as ih => simp [List.isPrefixOf, ih]

theorem strStartsWith_append (p t : String) :
    strStartsWith (p ++ t) p = true := by
  have h : (p ++ t).data = p.data ++ t.data := rfl
  simp [strStartsWith, h, isPrefixOf_append]

theorem mem_insertDesc (a x : FinancialMetrics) (l : List FinancialMetrics) :
    a ∈ insertDesc x l ↔ a = x ∨ a ∈ l := by
  induction l with
  | nil => simp [insertDesc]
  | cons y ys ih =>
    by_cases h : x.report_period < y.report_period <;>
      simp only [insertDesc, h, if_true, if_false, List.mem_cons, ih]
    tauto

theorem chain'_insertDesc (x : FinancialMetrics) (l : List FinancialMetrics)
    (hl : List.Chain' DescRel l) : List.Chain' DescRel (insertDesc x l) := by
  induction l with
  | nil => simp [insertDesc]
  | cons y ys ih =>
    by_cases h : x.report_period < y.report_period
    · rw [insertDesc, if_pos h]
      rw [List.chain'_cons'] at hl ⊢
      refine ⟨?_, ih hl.2⟩
      intro b hb
      cases ys with
      | nil =>
        simp [insertDesc] at hb
        subst hb
        exact le_of_lt h
      | cons z zs =>
        by_cases h2 : x.report_period < z.report_period
        · rw [insertDesc, if_pos h2] at hb
          simp at hb
          subst hb
          exact hl.1 z (by simp)
        · rw [insertDesc, if_neg h2] at hb
          simp at hb
          subst hb
          exact le_of_lt h
    · rw [insertDesc, if_neg h]
      rw [List.chain'_cons']
      refine ⟨?_, hl⟩
      intro b hb
      simp at hb
      subst hb
      exact le_of_not_lt h

theorem chain'_sortDesc (l : List FinancialMetrics) :
    List.Chain' DescRel (sortDesc l) := by
  induction l with
  | nil => simp [sortDesc]
  | cons x xs ih => exact chain'_insertDesc x (sortDesc xs) ih

theorem mem_sortDesc (a : FinancialMetrics) (l : List FinancialMetrics) :
    a ∈ sortDesc l ↔ a ∈ l := by
  induction l with
  | nil => simp [sortDesc]
  | cons x xs ih => simp [sortDesc, mem_insertDesc, ih]

/-- Every record the conversion loop of `get_financial_metrics` produces
(starting from an accumulator already within the bound) has
`report_period ≤ end_date`. -/
theorem buildMetrics_mem (tkr per : String) (snap : SnapRow)
    (bd cd : List StmtRow) (ed : Date) (limit : Nat) :
    ∀ (rows : List StmtRow) (acc : List FinancialMetrics),
      (∀ m ∈ acc, m.report_period ≤ ed) →
      ∀ m ∈ buildMetrics tkr per snap bd cd ed limit rows acc,
        m.report_period ≤ ed := by
  intro rows
  induction rows with
  | nil =>
    intro acc hacc m hm
    rw [buildMetrics] at hm
    exact hacc m hm
  | cons item rest ih =>
    intro acc hacc m hm
    rw [buildMetrics] at hm
    by_cases h : ed < item.report_date
    · rw [if_pos h] at hm
      exact ih acc hacc m hm
    · rw [if_neg h] at hm
      have hacc2 : ∀ m2 ∈ acc ++ [mkMetrics tkr per snap bd cd item],
          m2.report_period ≤ ed := by
        intro m2 hm2
        rcases List.mem_append.1 hm2 with h2 | h2
        · exact hacc m2 h2
        · simp at h2
          subst h2
          simpa [mkMetrics] using le_of_not_lt h
      by_cases h3 : limit ≤ (acc ++ [mkMetrics tkr per snap bd cd item]).length
      · rw [if_pos h3] at hm
        exact hacc2 m hm
      · rw [if_neg h3] at hm
        exact ih _ hacc2 m hm

/-- The conversion loop of `get_financial_metrics` never exceeds `limit`
records, provided the accumulator starts strictly below the limit. -/
theorem buildMetrics_length (tkr per : String) (snap : SnapRow)
    (bd cd : List StmtRow) (ed : Date) (limit : Nat) :
    ∀ (rows : List StmtRow) (acc : List FinancialMetrics),
      acc.length < limit →
      (buildMetrics tkr per snap bd cd ed limit rows acc).length ≤ limit := by
  intro rows
  induction rows with
  | nil =>
    intro acc h
    rw [buildMetrics]
    exact le_of_lt h
  | cons item rest ih =>
    intro acc h
    rw [buildMetrics]
    by_cases hd : ed < item.report_date
    · rw [if_pos hd]
      exact ih acc h
    · rw [if_neg hd]
      by_cases h3 : limit ≤ (acc ++ [mkMetrics tkr per snap bd cd item]).length
      · rw [if_pos h3]
        simpa using h
      · rw [if_neg h3]
        exact ih _ (lt_of_not_le h3)

/-- Case analysis of `get_financial_metrics`: a call either short-circuits
on the cache (provider untouched, sorted/filtered/truncated cache records),
or consults the provider and raises, returns empty, or returns the freshly
built records in provider row order. -/
theorem gfm_spec (cache : List FinancialMetrics) (env : FutuEnv)
    (tkr : String) (ed : Date) (per : String) (limit : Nat) :
    ((get_financial_metrics cache env tkr ed per limit).providerCalled =
        false ∧
      (get_financial_metrics cache env tkr ed per limit).result =
        Except.ok ((sortDesc (cache.filter
          (fun m => decide (m.report_period ≤ ed)))).take limit)) ∨
    ((get_financial_metrics cache env tkr ed per limit).providerCalled =
        true ∧
      ∃ e, (get_financial_metrics cache env tkr ed per limit).result =
        Except.error e) ∨
    ((get_financial_metrics cache env tkr ed per limit).providerCalled =
        true ∧
      (get_financial_metrics cache env tkr ed per limit).result =
        Except.ok []) ∨
    ((get_financial_metrics cache env tkr ed per limit).providerCalled =
        true ∧
      ∃ snap bd cd fd,
        (get_financial_metrics cache env tkr ed per limit).result =
          Except.ok (buildMetrics tkr per snap bd cd ed limit fd [])) := by
  unfold get_financial_metrics
  simp only [ne_eq]
  split
  · left
    exact ⟨rfl, rfl⟩
  · split
    · right; left
      exact ⟨rfl, _, rfl⟩
    · split
      · right; right; left
        exact ⟨rfl, rfl⟩
      · right; right; left
        exact ⟨rfl, rfl⟩
      · split
        · right; right; left
          exact ⟨rfl, rfl⟩
        · right; right; right
          exact ⟨rfl, _, _, _, _, rfl⟩

/-- Membership in `financial_types` (generalized over the accumulator of
the fold). -/
theorem mem_financialTypes_aux (k : StmtKind) :
    ∀ (l : List String) (acc : List StmtKind),
      k ∈ l.foldl
        (fun acc it =>
          match stmtKindFor it with
          | some k2 => if k2 ∈ acc then acc else acc ++ [k2]
          | none => acc) acc ↔
      k ∈ acc ∨ ∃ it ∈ l, stmtKindFor it = some k := by
  intro l
  induction l with
  | nil =>
    intro acc
    simp
  | cons it rest ih =>
    intro acc
    rw [List.foldl_cons]
    cases hit : stmtKindFor it with
    | none =>
      dsimp only
      rw [ih]
      simp only [List.mem_cons]
      constructor
      · rintro (h | ⟨it2, h2, h3⟩)
        · exact Or.inl h
        · exact Or.inr ⟨it2, Or.inr h2, h3⟩
      · rintro (h | ⟨it2, h2 | h2, h3⟩)
        · exact Or.inl h
        · subst h2
          rw [hit] at h3
          cases h3
        · exact Or.inr ⟨it2, h2, h3⟩
    | some k2 =>
      dsimp only
      by_cases hmem : k2 ∈ acc
      · rw [if_pos hmem, ih]
        simp only [List.mem_cons]
        constructor
        · rintro (h | ⟨it2, h2, h3⟩)
          · exact Or.inl h
          · exact Or.inr ⟨it2, Or.inr h2, h3⟩
        · rintro (h | ⟨it2, h2 | h2, h3⟩)
          · exact Or.inl h
          · subst h2
            rw [hit] at h3
            injection h3 with h3
            subst h3
            exact Or.inl hmem
          · exact Or.inr ⟨it2, h2, h3⟩
      · rw [if_neg hmem, ih]
        simp only [List.mem_append, List.mem_cons, List.not_mem_nil,
          or_false]
        constructor
        · rintro ((h | h) | ⟨it2, h2, h3⟩)
          · exact Or.inl h
          · subst h
            exact Or.inr ⟨it, Or.inl rfl, hit⟩
          · exact Or.inr ⟨it2, Or.inr h2, h3⟩
        · rintro (h | ⟨it2, h2 | h2, h3⟩)
          · exact Or.inl (Or.inl h)
          · subst h2
            rw [hit] at h3
            injection h3 with h3
            subst h3
            exact Or.inl (Or.inr rfl)
          · exact Or.inr ⟨it2, h2, h3⟩

/-- A statement kind is in `financial_types` exactly when some requested
field name maps to it. -/
theorem mem_financialTypes (l : List String) (k : StmtKind) :
    k ∈ financialTypes l ↔ ∃ it ∈ l, stmtKindFor it = some k := by
  rw [financialTypes, mem_financialTypes_aux]
  simp

/-! ### Claim theorems -/

/-- C9: the facade's symbol translation (prefixing a bare ticker with
`US.` unless it already starts with one of the recognized market prefixes
`US.`/`HK.`/`SH.`/`SZ.`) is idempotent: applying it twice yields the same
result as applying it once, for every ticker string. -/
theorem C9_translate_idempotent (t : String) :
    translate (translate t) = translate t := by
  unfold translate
  by_cases h : (strStartsWith t "US." || strStartsWith t "HK." ||
      strStartsWith t "SH." || strStartsWith t "SZ.") = true
  · simp [h]
  · simp only [h, if_neg, Bool.not_eq_true] at *
    simp [h, strStartsWith_append]

/-- C4: `safe_divide(a, b)` returns null iff `a` is null, `b` is null or
`b` is zero, and returns exactly `a / b` otherwise; and `quick_ratio` treats
`current_assets - inventory` as null when either operand is null before
dividing, so the metric's quick ratio is null in that case no matter what
the current liabilities are. -/
theorem C4_safe_divide :
    (∀ a b : Option ℚ,
      safe_divide a b = none ↔ a = none ∨ b = none ∨ b = some 0) ∧
    (∀ x y : ℚ,
      safe_divide (some x) (some y) =
        if y = 0 then none else some (x / y)) ∧
    (∀ (tkr per : String) (snap : SnapRow)
        (balance_data cashflow_data : List StmtRow) (item : StmtRow)
        (b0 : StmtRow),
      balance_data.find? (fun b => b.report_date == item.report_date) =
        some b0 →
      b0.current_assets = none ∨ b0.inventory = none →
      (mkMetrics tkr per snap balance_data cashflow_data item).quick_ratio =
        none) := by
  refine ⟨?_, ?_, ?_⟩
  · intro a b
    cases a <;> cases b <;> simp [safe_divide]
  · intro x y
    by_cases h : y = 0 <;> simp [safe_divide, h]
  · intro tkr per snap balance_data cashflow_data item b0 hfind hnull
    simp only [mkMetrics, hfind, Option.getD_some]
    rcases hnull with h | h <;> simp [h, safe_divide]

/-- C4 witness: the quick-ratio conjunct applied at a concrete balance row
whose inventory is missing. -/
theorem C4_safe_divide_witness :
    (mkMetrics "X" "ttm" snapNone [balRow3] [] incRow3).quick_ratio = none :=
  C4_safe_divide.2.2 "X" "ttm" snapNone [balRow3] [] incRow3 balRow3
    (by rfl) (Or.inr rfl)

/-- C5: when a raw income row's report date has no matching balance row,
the constructed `FinancialMetrics` record has every balance-derived ratio
null, while the income-only margins are still computed from the income row
through `safe_divide`. -/
theorem C5_join_completeness (tkr per : String) (snap : SnapRow)
    (balance_data cashflow_data : List StmtRow) (item : StmtRow)
    (h : ∀ b ∈ balance_data, b.report_date ≠ item.report_date) :
    (mkMetrics tkr per snap balance_data cashflow_data item).current_ratio =
      none ∧
    (mkMetrics tkr per snap balance_data cashflow_data item).quick_ratio =
      none ∧
    (mkMetrics tkr per snap balance_data cashflow_data item).cash_ratio =
      none ∧
    (mkMetrics tkr per snap balance_data cashflow_data item).debt_to_equity =
      none ∧
    (mkMetrics tkr per snap balance_data cashflow_data item).debt_to_assets =
      none ∧
    (mkMetrics tkr per snap balance_data cashflow_data
      item).return_on_equity = none ∧
    (mkMetrics tkr per snap balance_data cashflow_data
      item).return_on_assets = none ∧
    (mkMetrics tkr per snap balance_data cashflow_data item).asset_turnover =
      none ∧
    (mkMetrics tkr per snap balance_data cashflow_data item).gross_margin =
      safe_divide item.gross_profit item.revenue ∧
    (mkMetrics tkr per snap balance_data cashflow_data
      item).operating_margin = safe_divide item.operating_income
        item.revenue ∧
    (mkMetrics tkr per snap balance_data cashflow_data item).net_margin =
      safe_divide item.net_income item.revenue := by
  have hfind :
      balance_data.find? (fun b => b.report_date == item.report_date) =
        none := by
    rw [List.find?_eq_none]
    intro b hb
    simpa using h b hb
  simp [mkMetrics, hfind, emptyRow, safe_divide]

/-- C5 witness: at a concrete income row whose report date matches no
balance row, the balance-derived ratios are null and the gross margin is
still the income row's `gross_profit / revenue`. -/
theorem C5_join_completeness_witness :
    (mkMetrics "X" "ttm" snapNone [balRow3] [] incRow4).current_ratio =
      none ∧
    (mkMetrics "X" "ttm" snapNone [balRow3] [] incRow4).quick_ratio = none ∧
    (mkMetrics "X" "ttm" snapNone [balRow3] [] incRow4).cash_ratio = none ∧
    (mkMetrics "X" "ttm" snapNone [balRow3] [] incRow4).debt_to_equity =
      none ∧
    (mkMetrics "X" "ttm" snapNone [balRow3] [] incRow4).debt_to_assets =
      none ∧
    (mkMetrics "X" "ttm" snapNone [balRow3] [] incRow4).return_on_equity =
      none ∧
    (mkMetrics "X" "ttm" snapNone [balRow3] [] incRow4).return_on_assets =
      none ∧
    (mkMetrics "X" "ttm" snapNone [balRow3] [] incRow4).asset_turnover =
      none ∧
    (mkMetrics "X" "ttm" snapNone [balRow3] [] incRow4).gross_margin =
      safe_divide incRow4.gross_profit incRow4.revenue ∧
    (mkMetrics "X" "ttm" snapNone [balRow3] [] incRow4).operating_margin =
      safe_divide incRow4.operating_income incRow4.revenue ∧
    (mkMetrics "X" "ttm" snapNone [balRow3] [] incRow4).net_margin =
      safe_divide incRow4.net_income incRow4.revenue :=
  C5_join_completeness "X" "ttm" snapNone [balRow3] [] incRow4
    (by intro b hb; simp at hb; subst hb; decide)

/-- C1: whenever the cached price records for a ticker have a non-empty
subset inside `[start_date, end_date]`, `get_prices` returns exactly that
filtered subset, never consults the provider adapter and leaves the cache
unchanged; and likewise `get_financial_metrics` with its
`report_period <= end_date` filter (sorted descending and truncated to
`limit`) never consults the provider on such a hit. -/
theorem C1_cache_short_circuit (pcache : List Price) (penv : FutuEnv)
    (tkr : String) (sd ed : Date) (mcache : List FinancialMetrics)
    (menv : FutuEnv) (tkr2 : String) (ed2 : Date) (per : String)
    (limit : Nat)
    (hp : pcache.filter (fun p => decide (sd ≤ p.time ∧ p.time ≤ ed)) ≠ [])
    (hm : mcache.filter (fun m => decide (m.report_period ≤ ed2)) ≠ []) :
    get_prices pcache penv tkr sd ed =
      { result := Except.ok
          (pcache.filter (fun p => decide (sd ≤ p.time ∧ p.time ≤ ed))),
        providerCalled := false, cacheAfter := pcache } ∧
    get_financial_metrics mcache menv tkr2 ed2 per limit =
      { result := Except.ok
          ((sortDesc (mcache.filter
            (fun m => decide (m.report_period ≤ ed2)))).take limit),
        providerCalled := false, cacheAfter := mcache } := by
  constructor
  · have hc : pcache ≠ [] := by
      intro h
      subst h
      simp at hp
    unfold get_prices
    simp only [if_pos (And.intro hc hp)]
  · have hc : mcache ≠ [] := by
      intro h
      subst h
      simp at hm
    unfold get_financial_metrics
    simp only [if_pos (And.intro hc hm)]

/-- C1 witness: with a one-record cache covering the request, both facade
functions short-circuit — even against a provider that cannot connect. -/
theorem C1_cache_short_circuit_witness :
    get_prices [priceW] envBad "X" 1 10 =
      { result := Except.ok
          ([priceW].filter (fun p => decide (1 ≤ p.time ∧ p.time ≤ 10))),
        providerCalled := false, cacheAfter := [priceW] } ∧
    get_financial_metrics [fmW] envBad "X" 10 "ttm" 5 =
      { result := Except.ok
          ((sortDesc ([fmW].filter
            (fun m => decide (m.report_period ≤ 10)))).take 5),
        providerCalled := false, cacheAfter := [fmW] } :=
  C1_cache_short_circuit [priceW] envBad "X" 1 10 [fmW] envBad "X" 10 "ttm" 5
    (by decide) (by decide)

/-- C3 counterexample: with a successful `connect()` but a failing kline
provider call (`ret != RET_OK`, so `FutuAPI.get_history_kline` returns
`None`), `get_prices` consults the provider and returns an empty list `[]`
instead of raising, refuting the claim that every failing fetch leads to a
raised error. -/
theorem C3_counterexample :
    (get_prices [] envKlineFail "AAPL" 1 2).providerCalled = true ∧
    (get_prices [] envKlineFail "AAPL" 1 2).result = Except.ok [] :=
  ⟨rfl, rfl⟩

/-- C3 amended: on the price path, a `connect()` failure is indeed surfaced
as a raised exception, but a fetch whose underlying provider call fails is
not: the adapter returns `None` and `get_prices` converts it into an empty
result. -/
theorem C3_amended (cache : List Price) (env : FutuEnv) (tkr : String)
    (sd ed : Date)
    (hmiss : cache.filter (fun p => decide (sd ≤ p.time ∧ p.time ≤ ed)) =
      []) :
    (env.connectOk = false →
      (get_prices cache env tkr sd ed).result =
        Except.error ("Error fetching price data for " ++ tkr ++
          ": Failed to connect to Futu API")) ∧
    (env.connectOk = true → env.kline (translate tkr) sd ed = none →
      (get_prices cache env tkr sd ed).result = Except.ok []) := by
  unfold get_prices
  rw [if_neg (fun h => h.2 hmiss)]
  constructor
  · intro h
    simp [h]
  · intro h hk
    simp [h, hk]

/-- C3 witness: the amended claim at an empty cache, once against the
environment that cannot connect and once against the environment whose
kline call fails. -/
theorem C3_amended_witness :
    ((get_prices [] envBad "AAPL" 1 2).result =
      Except.error ("Error fetching price data for " ++ "AAPL" ++
        ": Failed to connect to Futu API")) ∧
    ((get_prices [] envKlineFail "AAPL" 1 2).result = Except.ok []) :=
  ⟨(C3_amended [] envBad "AAPL" 1 2 rfl).1 rfl,
   (C3_amended [] envKlineFail "AAPL" 1 2 rfl).2 rfl rfl⟩

/-- C10: when a call comes out empty — `Except.ok []` — no cache write has
happened: the stored entry after the call is exactly the entry before it,
for `get_prices` and `get_financial_metrics` alike.  (An `ok []` can only
arise on the provider-fetch path with zero canonical records: empty or
failed kline data, missing snapshot, or no metric rows at or before
`end_date`.) -/
theorem C10_empty_fetch_frame (pcache : List Price)
    (mcache : List FinancialMetrics) (env env2 : FutuEnv)
    (tkr tkr2 per : String) (sd ed ed2 : Date) (limit : Nat) :
    ((get_prices pcache env tkr sd ed).result = Except.ok [] →
      (get_prices pcache env tkr sd ed).cacheAfter = pcache) ∧
    ((get_financial_metrics mcache env2 tkr2 ed2 per limit).result =
        Except.ok [] →
      (get_financial_metrics mcache env2 tkr2 ed2 per limit).cacheAfter =
        mcache) := by
  constructor
  · unfold get_prices
    simp only [ne_eq]
    split
    · intro
      rfl
    · split
      · intro
        rfl
      · split
        · intro
          rfl
        · split
          · intro
            rfl
          · intro h
            simp only [Except.ok.injEq] at h
            simp [List.map_eq_nil_iff] at h
            simp_all
  · unfold get_financial_metrics
    simp only [ne_eq]
    split
    · intro
      rfl
    · split
      · intro
        rfl
      · split
        · intro
          rfl
        · intro
          rfl
        · split
          · intro
            rfl
          · intro h
            simp only [Except.ok.injEq] at h
            simp_all

/-- C2 counterexample: on the provider-fetch path `get_financial_metrics`
returns the freshly built records in the provider's row order without
sorting: against a provider serving income rows in ascending report-date
order, the returned list is not strictly descending by `report_period`. -/
theorem C2_counterexample :
    ¬ List.Chain' (fun a b => b.report_period < a.report_period)
        (okList (get_financial_metrics [] envAsc "X" 10 "ttm" 5).result) := by
  intro h
  have h2 := List.chain'_cons.1 h
  simp [envAsc, mkMetrics, incRow3, incRow4] at h2

/-- C2 amended: for `limit >= 1`, any list `get_financial_metrics` returns
has length at most `limit` and every record's `report_period` is at most
`end_date`; on the cache-hit path (provider not consulted) the list is
additionally descending by `report_period` — strict descent fails on the
provider-fetch path, which keeps the provider's row order, and can fail on
cached duplicates. -/
theorem C2_amended (cache : List FinancialMetrics) (env : FutuEnv)
    (tkr per : String) (ed : Date) (limit : Nat)
    (ms : List FinancialMetrics) (hl : 1 ≤ limit)
    (hok : (get_financial_metrics cache env tkr ed per limit).result =
      Except.ok ms) :
    ms.length ≤ limit ∧ (∀ m ∈ ms, m.report_period ≤ ed) ∧
    ((get_financial_metrics cache env tkr ed per limit).providerCalled =
        false → List.Chain' DescRel ms) := by
  rcases gfm_spec cache env tkr ed per limit with
    ⟨hpc, hres⟩ | ⟨hpc, e, hres⟩ | ⟨hpc, hres⟩ | ⟨hpc, snap, bd, cd, fd, hres⟩
  · rw [hok] at hres
    injection hres with hres
    subst hres
    refine ⟨?_, ?_, ?_⟩
    · rw [List.length_take]
      exact min_le_left _ _
    · intro m hm
      have := (mem_sortDesc m _).1 (List.mem_of_mem_take hm)
      simpa using (List.mem_filter.1 this).2
    · intro
      exact (chain'_sortDesc _).take limit
  · rw [hok] at hres
    exact absurd hres (by simp)
  · rw [hok] at hres
    injection hres with hres
    subst hres
    exact ⟨by simp, by simp, by simp⟩
  · rw [hok] at hres
    injection hres with hres
    subst hres
    refine ⟨?_, ?_, ?_⟩
    · exact buildMetrics_length tkr per snap bd cd ed limit fd []
        (by simpa using hl)
    · exact buildMetrics_mem tkr per snap bd cd ed limit fd [] (by simp)
    · intro hfalse
      rw [hpc] at hfalse
      cases hfalse

/-- C2 witness: the amended bound applied on a concrete cache hit. -/
theorem C2_amended_witness :
    (okList (get_financial_metrics [fmW] envBad "X" 10 "ttm" 5).result).length
      ≤ 5 :=
  (C2_amended [fmW] envBad "X" "ttm" 10 5
    (okList (get_financial_metrics [fmW] envBad "X" 10 "ttm" 5).result)
    (by decide) rfl).1

/-- C6 counterexample: with a cached line-item record inside the requested
range, `search_line_items` still consults the provider (and here fails on
`connect()`) instead of returning the cached record: the source function
performs no cache lookup at all. -/
theorem C6_counterexample :
    (search_line_items [liW] envBad "X" ["revenue"] 10 "ttm" 5).providerCalled
        = true ∧
    (search_line_items [liW] envBad "X" ["revenue"] 10 "ttm" 5).result =
      Except.error ("Error fetching line items from Futu API: " ++ "X" ++
        " - Failed to connect to Futu API") :=
  ⟨rfl, rfl⟩

/-- C6 amended: `search_line_items` does not follow the read-through
sequence: it never queries the cache gateway (its result is independent of
any cached line-item records), always consults the provider adapter, and
never writes the cache back. -/
theorem C6_amended (cache : List LineItem) (env : FutuEnv) (tkr : String)
    (line_items : List String) (ed : Date) (per : String) (limit : Nat) :
    (search_line_items cache env tkr line_items ed per limit).providerCalled
        = true ∧
    (search_line_items cache env tkr line_items ed per limit).cacheAfter =
      cache ∧
    ∀ cache2 : List LineItem,
      (search_line_items cache2 env tkr line_items ed per limit).result =
        (search_line_items cache env tkr line_items ed per limit).result := by
  unfold search_line_items
  by_cases h : env.connectOk <;> simp [h]

/-- C7 counterexample: when `get_financial_metrics` returns an empty list
(here: connected provider, empty snapshot), `get_market_cap` raises an
`IndexError` from `financial_metrics[0]` instead of returning null. -/
theorem C7_counterexample :
    get_market_cap [] envSnapEmpty "X" 10 =
      Except.error "IndexError: list index out of range" := rfl

/-- C7 amended: `get_market_cap` returns the `market_cap` of the first
record returned by `get_financial_metrics` — null when that value is falsy
(`None` or `0`) — and that first record is the most recent one on the
cache-hit path; but when `get_financial_metrics` returns an empty list the
call raises an index error rather than returning null, and a provider error
propagates. -/
theorem C7_amended (cache : List FinancialMetrics) (env : FutuEnv)
    (tkr : String) (ed : Date) :
    ((get_financial_metrics cache env tkr ed "ttm" 10).result =
        Except.ok [] →
      get_market_cap cache env tkr ed =
        Except.error "IndexError: list index out of range") ∧
    (∀ m rest,
      (get_financial_metrics cache env tkr ed "ttm" 10).result =
        Except.ok (m :: rest) →
      (m.market_cap = none →
        get_market_cap cache env tkr ed = Except.ok none) ∧
      (m.market_cap = some 0 →
        get_market_cap cache env tkr ed = Except.ok none) ∧
      (∀ v : ℚ, v ≠ 0 → m.market_cap = some v →
        get_market_cap cache env tkr ed = Except.ok (some v)) ∧
      ((get_financial_metrics cache env tkr ed "ttm" 10).providerCalled =
          false →
        ∀ m2 ∈ rest, m2.report_period ≤ m.report_period)) ∧
    (∀ e, (get_financial_metrics cache env tkr ed "ttm" 10).result =
        Except.error e →
      get_market_cap cache env tkr ed = Except.error e) := by
  refine ⟨?_, ?_, ?_⟩
  · intro h
    unfold get_market_cap
    rw [h]
  · intro m rest h
    refine ⟨?_, ?_, ?_, ?_⟩
    · intro hmc
      unfold get_market_cap
      rw [h]
      simp [hmc]
    · intro hmc
      unfold get_market_cap
      rw [h]
      simp [hmc]
    · intro v hv hmc
      unfold get_market_cap
      rw [h]
      simp [hmc, hv]
    · intro hpc m2 hm2
      rcases gfm_spec cache env tkr ed "ttm" 10 with
        ⟨hpc2, hres⟩ | ⟨hpc2, e, hres⟩ | ⟨hpc2, hres⟩ |
        ⟨hpc2, snap, bd, cd, fd, hres⟩
      · rw [h] at hres
        injection hres with hres
        have hch : List.Chain' DescRel (m :: rest) := by
          rw [hres]
          exact (chain'_sortDesc _).take 10
        have hpw := List.chain'_iff_pairwise.1 hch
        exact (List.pairwise_cons.1 hpw).1 m2 hm2
      · rw [hpc2] at hpc
        cases hpc
      · rw [hpc2] at hpc
        cases hpc
      · rw [hpc2] at hpc
        cases hpc
  · intro e h
    unfold get_market_cap
    rw [h]

/-- C7 witness: on a concrete cache hit whose single record has a null
market cap, `get_market_cap` returns null. -/
theorem C7_amended_witness :
    get_market_cap [fmW] envBad "X" 10 = Except.ok none :=
  ((C7_amended [fmW] envBad "X" 10).2.1 fmW [] rfl).1 rfl

/-- C8: `search_line_items` fetches only the statement kinds that the fixed
field-name mapping assigns to some requested field; in particular a request
whose field names are all income-statement fields never fetches the
cashflow kind. -/
theorem C8_statement_kind_scoping (cache : List LineItem) (env : FutuEnv)
    (tkr : String) (line_items : List String) (ed : Date) (per : String)
    (limit : Nat) :
    ((∀ it ∈ line_items, stmtKindFor it = some StmtKind.income) →
      StmtKind.cashflow ∉
        (search_line_items cache env tkr line_items ed per
          limit).fetchedKinds) ∧
    (∀ k ∈ (search_line_items cache env tkr line_items ed per
        limit).fetchedKinds,
      ∃ it ∈ line_items, stmtKindFor it = some k) := by
  have hsub : ∀ k ∈ (search_line_items cache env tkr line_items ed per
      limit).fetchedKinds, ∃ it ∈ line_items, stmtKindFor it = some k := by
    intro k hk
    unfold search_line_items at hk
    by_cases h : env.connectOk
    · simp only [h, not_true_eq_false, if_false] at hk
      exact (mem_financialTypes line_items k).1 hk
    · simp only [h, not_false_eq_true, if_true] at hk
      simp at hk
  refine ⟨?_, hsub⟩
  intro hinc hmem
  rcases hsub _ hmem with ⟨it, hit, hkind⟩
  rw [hinc it hit] at hkind
  cases hkind

/-- C8 witness: requesting only `revenue` against a live provider fetches
no cashflow statement. -/
theorem C8_statement_kind_scoping_witness :
    StmtKind.cashflow ∉
      (search_line_items [] envAsc "X" ["revenue"] 10 "ttm" 5).fetchedKinds :=
  (C8_statement_kind_scoping [] envAsc "X" ["revenue"] 10 "ttm" 5).1
    (by intro it hi; simp at hi; subst hi; rfl)

/-- C10 witness: the frame property applied at concrete empty-result
fetches (failed kline call; empty snapshot). -/
theorem C10_empty_fetch_frame_witness :
    (get_prices [] envKlineFail "AAPL" 1 2).cacheAfter = [] ∧
    (get_financial_metrics [] envSnapEmpty "X" 10 "ttm" 5).cacheAfter =
      [] :=
  ⟨(C10_empty_fetch_frame [] [] envKlineFail envSnapEmpty "AAPL" "X" "ttm"
      1 2 10 5).1 rfl,
   (C10_empty_fetch_frame [] [] envKlineFail envSnapEmpty "AAPL" "X" "ttm"
      1 2 10 5).2 rfl⟩

end HedgeFund
